import Mathlib

/-!
Verification of the goal-keeper conversation signal engine.

This file gives a shallow embedding of the analyzer layer of the
goal-keeper chat client (goal-keyword extraction, client-side drift
detection, regex action-item extraction, behavioral trait inference,
observation generation, cognitive profile blending, and the throttled
LLM-backed insight/unified analyzers), and proves properties of that
embedding.

Modelling conventions:
- JavaScript numbers are modelled as `ℚ` (all arithmetic in the
  analyzers is on small exact decimals and integer counters).
- JavaScript `Date` values are modelled as `Nat` millisecond timestamps.
- `generateId()` (a random unique id) is modelled as `""`: no analyzed
  property inspects ids.
- JavaScript `Set` objects are modelled as lists with membership-guarded
  insertion; `Record<string, number>` as association lists.
- The external LLM completion call and the subsequent JSON parse are
  modelled as an oracle delivering either a thrown error or the parse
  result (an `Option` of the typed response shape).
-/

namespace GoalKeeper

/-- Message author role (`'user' | 'assistant'`). -/
inductive Role
  | user
  | assistant
deriving DecidableEq, Repr

/-- A chat message. The source `Message` also carries a timestamp and
optional attachments, which none of the embedded analyzers read. -/
structure Message where
  id : String
  role : Role
  content : String
deriving DecidableEq, Repr

/-- Action item priority (`'high' | 'medium' | 'low'`). -/
inductive Priority
  | high
  | medium
  | low
deriving DecidableEq, Repr

/-- An action item (src/components/ActionItems shape as used by the hooks). -/
structure ActionItem where
  id : String
  text : String
  completed : Bool
  dismissed : Bool
  messageId : String
  priority : Priority
deriving DecidableEq, Repr

/-- Scan a haystack for an occurrence of `needle` as a contiguous run. -/
def containsSubList (needle : List Char) : List Char → Bool
  | [] => needle.isPrefixOf []
  | c :: t => needle.isPrefixOf (c :: t) || containsSubList needle t

/-- JavaScript `String.prototype.includes`: substring containment. -/
def containsSub (s pat : String) : Bool :=
  containsSubList pat.toList s.toList

/-- JavaScript `\s` whitespace class (ASCII part; the analyzed strings are
ASCII). -/
def isWsJS (c : Char) : Bool :=
  c == ' ' || c == '\t' || c == '\n' || c == '\r' || c == '\x0b' || c == '\x0c'

/-- JavaScript `\w` word-character class: `[A-Za-z0-9_]`. -/
def isWordCharJS (c : Char) : Bool :=
  c.isAlphanum || c == '_'

/-- `toLowerCase` on a character list (the analyzed text is ASCII). -/
def lowerL (l : List Char) : List Char :=
  l.map Char.toLower

/-- `toLowerCase` on a string. -/
def lowerStr (s : String) : String :=
  String.mk (lowerL s.toList)

/-- Split a character list into its maximal whitespace-free runs
(accumulator in reverse). -/
def wordsAux (acc : List Char) : List Char → List (List Char)
  | [] => if acc.isEmpty then [] else [acc.reverse]
  | c :: t =>
    if isWsJS c then
      if acc.isEmpty then wordsAux [] t else acc.reverse :: wordsAux [] t
    else wordsAux (c :: acc) t

/-- JavaScript `split(/\s+/)` up to empty tokens (see
`extractGoalKeywords`). -/
def splitWsL (l : List Char) : List (List Char) :=
  wordsAux [] l

/-- JavaScript `trim`: strip whitespace from both ends. -/
def trimL (l : List Char) : List Char :=
  ((l.dropWhile isWsJS).reverse.dropWhile isWsJS).reverse

/-- Join character lists with a single space (`Array.prototype.join(' ')`). -/
def joinSpaceL : List (List Char) → List Char
  | [] => []
  | [p] => p
  | p :: rest => p ++ ' ' :: joinSpaceL rest

/-- JavaScript `String.prototype.replace` with a string pattern: replace
the first occurrence only. -/
def replaceFirstL (pat sub : List Char) : List Char → List Char
  | [] => if pat.isPrefixOf ([] : List Char) then sub else []
  | c :: t =>
    if pat.isPrefixOf (c :: t) then sub ++ (c :: t).drop pat.length
    else c :: replaceFirstL pat sub t

/-- `replaceFirst s pat sub` replaces the first occurrence of `pat` in `s`. -/
def replaceFirst (s pat sub : String) : String :=
  String.mk (replaceFirstL pat.toList sub.toList s.toList)

/-- The stop-word set of `extractGoalKeywords`
(src/unnamed/part_000 lines 146-158), verbatim. -/
def stopWords : List String :=
  ["the", "a", "an", "and", "or", "but", "in", "on", "at", "to", "for",
   "of", "with", "by", "from", "as", "is", "was", "are", "were", "been",
   "be", "have", "has", "had", "do", "does", "did", "will", "would", "could",
   "should", "may", "might", "must", "shall", "can", "need", "dare", "ought",
   "used", "this", "that", "these", "those", "i", "you", "he", "she", "it",
   "we", "they", "what", "which", "who", "whom", "whose", "where", "when",
   "why", "how", "all", "each", "every", "both", "few", "more", "most",
   "other", "some", "such", "no", "not", "only", "own", "same", "so",
   "than", "too", "very", "just", "about", "into", "through", "during",
   "before", "after", "above", "below", "between", "under", "again",
   "want", "help", "make", "get", "understand", "learn", "know", "think"]

/-- `extractGoalKeywords` (src/unnamed/part_000 lines 144-165): lowercase,
strip characters outside `[\w\s]`, split on whitespace, keep tokens of
length > 2 that are not stop-words.  JavaScript `split(/\s+/)` differs
from the maximal-run split used here only by a possible leading empty
token, which the length filter removes. -/
def extractGoalKeywords (goal : String) : List String :=
  let cleaned := (lowerL goal.toList).filter (fun c => isWordCharJS c || isWsJS c)
  ((splitWsL cleaned).map String.mk).filter
    (fun word => 2 < word.length && !(stopWords.contains word))

/-- Result shape of the client-side drift check. -/
structure DriftAssessment where
  isDrifting : Bool
  matchRatio : ℚ
deriving DecidableEq, Repr

/-- JavaScript `Array.prototype.slice(-4)`: the last (at most) 4 elements. -/
def lastFour (msgs : List Message) : List Message :=
  msgs.drop (msgs.length - 4)

/-- The lowercased text of the last 4 messages joined with a single space
(src/unnamed/part_000 lines 177-180). -/
def recentText (msgs : List Message) : String :=
  String.mk (joinSpaceL ((lastFour msgs).map (fun m => lowerL m.content.toList)))

/-- `checkDriftClientSide` (src/unnamed/part_000 lines 168-189). -/
def checkDriftClientSide (messages : List Message) (goalKeywords : List String)
    (minMessages : Nat) : DriftAssessment :=
  if messages.length < minMessages ∨ goalKeywords.length = 0 then
    { isDrifting := false, matchRatio := 1 }
  else
    let matchCount :=
      (goalKeywords.filter (fun kw => containsSub (recentText messages) kw)).length
    let matchRatio : ℚ := (matchCount : ℚ) / (goalKeywords.length : ℚ)
    { isDrifting := decide (matchRatio < 15/100), matchRatio := matchRatio }

/-- Modelled from the claim's words, for a refinement comparison with
`checkDriftClientSide`: the match ratio computed against the separator-free
concatenation of the lowercased texts of the last 4 messages (the code
instead joins the texts with a single space). -/
def concatRecentText (messages : List Message) : String :=
  String.mk (((lastFour messages).map (fun m => lowerL m.content.toList)).flatten)

/-- Modelled from the claim's words (continued): the ratio of keywords
occurring in `concatRecentText`. -/
def claimConcatMatchRatio (messages : List Message) (goalKeywords : List String) : ℚ :=
  ((goalKeywords.filter (fun kw => containsSub (concatRecentText messages) kw)).length : ℚ) /
    (goalKeywords.length : ℚ)

/-! ### Regex action-item extraction (src/unnamed/part_000 lines 7-64)

Each of the 8 `ACTION_PATTERNS` has the shape
`PREFIX (.+?) (?:\.|$)` with the `gi` flags, where `PREFIX` is an ordered
alternation of literals (optional parts are flattened into ordered
alternatives, greedy part first, matching the regex backtracking order),
except the `TODO|TASK|ACTION` pattern whose prefix is followed by `:?\s*`.
The engine below implements exactly these shapes: case-insensitive literal
prefix match, lazy one-or-more capture of non-line-terminator characters
up to a consumed `.` or the end of input, and a global scan that resumes
after each match (leftmost-first, as `RegExp.exec` with `lastIndex`).
`\s*` is taken greedily without backtracking, which coincides with the
JavaScript semantics unless the remaining input is whitespace ending in a
line terminator (no such input occurs in the analyzed messages, and any
capture it could produce is removed by the length filter). -/

/-- Case-insensitive literal match: consume `pat` (given lowercase) from the
front of `t`, returning the remaining text. -/
def matchLitCI : List Char → List Char → Option (List Char)
  | [], t => some t
  | _ :: _, [] => none
  | p :: ps, c :: cs => if c.toLower == p then matchLitCI ps cs else none

/-- A character the JavaScript regex `.` matches (anything but a line
terminator; the astral cases are irrelevant for the analyzed ASCII text). -/
def isDotCharJS (c : Char) : Bool :=
  !(c == '\n' || c == '\r')

/-- Continuation of `lazyCapture` once at least one character is captured:
stop (consuming) at the first `.`, stop at end of input, fail on a line
terminator. `acc` holds the captured characters in reverse. -/
def lazyCaptureGo (acc : List Char) : List Char → Option (List Char × List Char)
  | [] => some (acc.reverse, [])
  | c :: rest =>
    if c == '.' then some (acc.reverse, rest)
    else if isDotCharJS c then lazyCaptureGo (c :: acc) rest
    else none

/-- `(.+?)(?:\.|$)`: lazily capture one or more non-line-terminator
characters followed by a consumed `.` or the end of input.  The first
character is always captured (the `+` lower bound) even if it is a `.`. -/
def lazyCapture : List Char → Option (List Char × List Char)
  | [] => none
  | c :: rest => if isDotCharJS c then lazyCaptureGo [c] rest else none

/-- One of the 8 action patterns: plain ordered literal alternatives, or the
`TODO|TASK|ACTION` shape with its trailing `:?\s*`. -/
inductive PatSpec
  | lits (alts : List String)
  | todoLike (alts : List String)

/-- Try the literal alternatives in order at the current position; each must
be followed by a successful capture (regex backtracking across the
alternation). Returns the capture and the text after the whole match. -/
def tryAlts (alts : List String) (t : List Char) : Option (List Char × List Char) :=
  match alts with
  | [] => none
  | a :: rest =>
    match matchLitCI a.toList t with
    | some after =>
      match lazyCapture after with
      | some r => some r
      | none => tryAlts rest t
    | none => tryAlts rest t

/-- The `:?\s*(.+?)(?:\.|$)` tail of the `TODO|TASK|ACTION` pattern: greedy
optional colon (falling back to no colon if nothing remains to capture),
then greedy whitespace, then the lazy capture. -/
def todoTail (t : List Char) : Option (List Char × List Char) :=
  match t with
  | ':' :: r =>
    match lazyCapture (r.dropWhile isWsJS) with
    | some res => some res
    | none => lazyCapture (t.dropWhile isWsJS)
  | _ => lazyCapture (t.dropWhile isWsJS)

/-- Like `tryAlts` for the `todoLike` pattern shape. -/
def tryTodoAlts (alts : List String) (t : List Char) : Option (List Char × List Char) :=
  match alts with
  | [] => none
  | a :: rest =>
    match matchLitCI a.toList t with
    | some after =>
      match todoTail after with
      | some r => some r
      | none => tryTodoAlts rest t
    | none => tryTodoAlts rest t

/-- Attempt a full pattern match at the current position. -/
def tryAt : PatSpec → List Char → Option (List Char × List Char)
  | .lits alts, t => tryAlts alts t
  | .todoLike alts, t => tryTodoAlts alts t

/-- Global scan: collect every capture left to right, resuming after each
match; on failure advance one character.  `fuel` bounds the recursion and is
instantiated with the text length (every step strictly shortens the text,
since a match consumes its nonempty prefix and nonempty capture). -/
def execAllAux (p : PatSpec) : Nat → List Char → List (List Char)
  | 0, _ => []
  | _ + 1, [] => []
  | fuel + 1, c :: tail =>
    match tryAt p (c :: tail) with
    | some (cap, rest) => cap :: execAllAux p fuel rest
    | none => execAllAux p fuel tail

/-- All captures of a pattern over a string, in match order. -/
def execAll (p : PatSpec) (s : String) : List (List Char) :=
  execAllAux p s.length s.toList

/-- `ACTION_PATTERNS` (src/unnamed/part_000 lines 7-16), each regex written
as its ordered literal-alternative prefixes. -/
def actionPatterns : List (PatSpec × Priority) :=
  [(.lits ["i need to ", "i have to ", "i want to ", "i should to ",
           "i must to ", "i will to ", "we need to ", "we have to ",
           "we want to ", "we should to ", "we must to ", "we will to "], .high),
   (.todoLike ["todo", "task", "action"], .high),
   (.lits ["remember to ", "don\x27t forget to "], .medium),
   (.lits ["let\x27s ", "let us "], .medium),
   (.lits ["make sure to ", "make sure ", "ensure to ", "ensure "], .medium),
   (.lits ["next step ", "next, "], .medium),
   (.lits ["consider ", "think about "], .low),
   (.lits ["might want to ", "could "], .low)]

/-- `text.charAt(0).toUpperCase() + text.slice(1)`. -/
def capitalizeL : List Char → List Char
  | [] => []
  | c :: cs => c.toUpper :: cs

/-- `extractActionItems` (src/unnamed/part_000 lines 37-64): assistant
messages only; every capture of every pattern is trimmed, kept when its
length is strictly between 5 and 200, capitalized, and emitted with the
pattern's priority (pattern order, then match order; no dedup here). -/
def extractActionItems (msg : Message) : List ActionItem :=
  if msg.role ≠ Role.assistant then []
  else
    (actionPatterns.map (fun pp =>
      (execAll pp.1 msg.content).filterMap (fun cap =>
        let text := trimL cap
        if 5 < text.length ∧ text.length < 200 then
          some { id := "", text := String.mk (capitalizeL text), completed := false,
                 dismissed := false, messageId := msg.id, priority := pp.2 }
        else none))).flatten

/-- `HIGHLIGHT_KEYWORDS` (src/unnamed/part_000 lines 19-23), verbatim. -/
def highlightKeywords : List String :=
  ["breakthrough", "realized", "aha", "insight", "key point", "important",
   "crucial", "essential", "finally", "got it", "makes sense", "clicking",
   "connected", "pattern", "underlying", "root cause", "solution"]

/-- `checkForHighlight` (src/unnamed/part_000 lines 67-70). -/
def checkForHighlight (msg : Message) : Bool :=
  highlightKeywords.any (fun kw => containsSub (lowerStr msg.content) kw)

/-- The client-side analysis state of `useClientSideAnalysis`: the running
action-item list, the highlighted-message id set, and the processed-message
id set (`processedMessagesRef`).  The two JavaScript `Set`s are modelled as
lists with membership-guarded insertion. -/
structure AnalysisState where
  actionItems : List ActionItem
  highlightedMessages : List String
  processedMessages : List String
deriving DecidableEq, Repr

/-- The dedup-and-append merge used when inserting freshly extracted items
into the running list: new items whose lowercased text already occurs in
the existing list are dropped (src/unnamed/part_000 lines 80-86; the same
logic appears at src/src/hooks/useActionItems.ts lines 65-71 for
LLM-extracted items). -/
def mergeActionItems (prev newItems : List ActionItem) : List ActionItem :=
  prev ++ newItems.filter
    (fun item => !((prev.map (fun i => lowerStr i.text)).contains (lowerStr item.text)))

/-- Membership-guarded insertion into an insertion-ordered set
(`new Set([...prev, id])`). -/
def insertIdSet (l : List String) (id : String) : List String :=
  if l.contains id then l else l ++ [id]

/-- `analyzeMessage` (src/unnamed/part_000 lines 73-92): skip messages whose
id was already processed; otherwise record the id, merge extracted action
items (when any) and mark the message highlighted when a highlight keyword
occurs. -/
def analyzeMessage (st : AnalysisState) (msg : Message) : AnalysisState :=
  if st.processedMessages.contains msg.id then st
  else
    let newItems := extractActionItems msg
    { actionItems :=
        if newItems.length > 0 then mergeActionItems st.actionItems newItems
        else st.actionItems,
      highlightedMessages :=
        if checkForHighlight msg then insertIdSet st.highlightedMessages msg.id
        else st.highlightedMessages,
      processedMessages := msg.id :: st.processedMessages }

/-! ### Behavioral trait inference (src/src/hooks/useBehavioralInference.ts) -/

/-- `BehavioralMetrics` (src/src/types/behavioral.ts lines 3-30).  Counters
are `Nat`; the running-average fields are `ℚ`; `clipsByCategory` is an
association list. -/
structure BehavioralMetrics where
  tangentCount : Nat
  selfCorrectionCount : Nat
  promptedRefocusCount : Nat
  questionBeforeActionCount : Nat
  quickDecisionCount : Nat
  optionsExploredAvg : ℚ
  insightsAccepted : Nat
  insightsDismissed : Nat
  insightsActedOn : Nat
  clipsTotal : Nat
  clipsByCategory : List (String × Nat)
  actionItemsCreated : Nat
  actionItemsCompleted : Nat
  avgMessageLength : ℚ
  followUpRatio : ℚ
  sessionCount : Nat
  avgSessionLength : ℚ
deriving DecidableEq, Repr

/-- `InferredTrait` (src/src/types/behavioral.ts lines 32-40); `lastUpdated`
is a millisecond timestamp. -/
structure InferredTrait where
  id : String
  name : String
  description : String
  confidence : ℚ
  value : ℚ
  confirmedByUser : Option Bool
  lastUpdated : Nat
deriving DecidableEq, Repr

/-- `PendingObservation` (src/src/types/behavioral.ts lines 49-58); the
unused optional `suggestedAction` field is omitted. -/
structure PendingObservation where
  id : String
  traitId : String
  message : String
  question : String
  priority : Priority
  createdAt : Nat
  dismissed : Bool
deriving DecidableEq, Repr

/-- `BehavioralProfile` (src/src/types/behavioral.ts lines 42-47). -/
structure BehavioralProfile where
  metrics : BehavioralMetrics
  traits : List InferredTrait
  observations : List PendingObservation
  lastAnalyzed : Nat
deriving DecidableEq, Repr

/-- `MIN_SAMPLES_FOR_TRAIT` (useBehavioralInference.ts line 16). -/
def MIN_SAMPLES_FOR_TRAIT : Nat := 5

/-- `OBSERVATION_COOLDOWN_MS` (useBehavioralInference.ts line 17). -/
def OBSERVATION_COOLDOWN_MS : Nat := 1000 * 60 * 30

/-- `existing?.confirmedByUser ?? null`: the prior trait's confirmation
state, carried over by id lookup. -/
def priorConfirmation (prevTraits : List InferredTrait) (traitId : String) : Option Bool :=
  match prevTraits.find? (fun t => t.id == traitId) with
  | some t => t.confirmedByUser
  | none => none

/-- The trait list built by one `analyzePatterns` pass
(useBehavioralInference.ts lines 117-193): conditional pushes onto an
initially empty array, rendered as a concatenation of conditional
singletons.  Trait names and descriptions are the `TRAIT_DEFINITIONS`
entries (src/src/types/behavioral.ts lines 61-92). -/
def inferTraits (prevTraits : List InferredTrait) (metrics : BehavioralMetrics)
    (now : Nat) : List InferredTrait :=
  let expBlock :=
    let totalDriftEvents := metrics.tangentCount + metrics.selfCorrectionCount
    if MIN_SAMPLES_FOR_TRAIT ≤ totalDriftEvents then
      let selfCorrectionRatio : ℚ :=
        (metrics.selfCorrectionCount : ℚ) / ((max 1 totalDriftEvents : Nat) : ℚ)
      [{ id := "explorationTendency", name := "Exploration Style",
         description := "How much you explore tangents vs. staying on track",
         confidence := min 1 ((totalDriftEvents : ℚ) / 20),
         value := 1 - selfCorrectionRatio,
         confirmedByUser := priorConfirmation prevTraits "explorationTendency",
         lastUpdated := now }]
    else []
  let decBlock :=
    let decisionEvents := metrics.questionBeforeActionCount + metrics.quickDecisionCount
    if MIN_SAMPLES_FOR_TRAIT ≤ decisionEvents then
      let thoroughnessValue : ℚ :=
        (metrics.questionBeforeActionCount : ℚ) / ((max 1 decisionEvents : Nat) : ℚ)
      [{ id := "decisionStyle", name := "Decision Approach",
         description := "Whether you decide quickly or explore all options first",
         confidence := min 1 ((decisionEvents : ℚ) / 15),
         value := thoroughnessValue,
         confirmedByUser := priorConfirmation prevTraits "decisionStyle",
         lastUpdated := now }]
    else []
  let insBlock :=
    let insightEvents := metrics.insightsAccepted + metrics.insightsDismissed
    if MIN_SAMPLES_FOR_TRAIT ≤ insightEvents then
      let receptivityValue : ℚ :=
        (metrics.insightsAccepted : ℚ) / ((max 1 insightEvents : Nat) : ℚ)
      [{ id := "insightReceptivity", name := "Insight Engagement",
         description := "How you respond to AI-generated insights and suggestions",
         confidence := min 1 ((insightEvents : ℚ) / 10),
         value := receptivityValue,
         confirmedByUser := priorConfirmation prevTraits "insightReceptivity",
         lastUpdated := now }]
    else []
  let capBlock :=
    if MIN_SAMPLES_FOR_TRAIT ≤ metrics.clipsTotal then
      let actionClips := ((metrics.clipsByCategory.lookup "actions").getD 0)
      let ideaClips := ((metrics.clipsByCategory.lookup "ideas").getD 0)
      let total := actionClips + ideaClips
      let actionFocus : ℚ := if 0 < total then (actionClips : ℚ) / (total : ℚ) else 1/2
      [{ id := "captureStyle", name := "Information Capture",
         description := "Whether you capture mainly tasks or ideas/references",
         confidence := min 1 ((metrics.clipsTotal : ℚ) / 15),
         value := 1 - actionFocus,
         confirmedByUser := priorConfirmation prevTraits "captureStyle",
         lastUpdated := now }]
    else []
  expBlock ++ decBlock ++ insBlock ++ capBlock

/-- `analyzePatterns` (useBehavioralInference.ts lines 117-200): replace the
trait list wholesale when any trait was inferred, keep it otherwise. -/
def analyzePatterns (now : Nat) (prev : BehavioralProfile) : BehavioralProfile :=
  let newTraits := inferTraits prev.traits prev.metrics now
  { prev with
    traits := if 0 < newTraits.length then newTraits else prev.traits,
    lastAnalyzed := now }

/-- The cooldown test of `generateObservations` (useBehavioralInference.ts
lines 210-212): an undismissed observation younger than 30 minutes.  The
JavaScript subtraction can be negative for a future `createdAt`, which also
passes the `< cooldown` test, as does the truncated `Nat` subtraction. -/
def isRecentObservation (now : Nat) (o : PendingObservation) : Bool :=
  !o.dismissed && decide (now - o.createdAt < OBSERVATION_COOLDOWN_MS)

/-- `observations.some(o => o.traitId === tid && !o.dismissed)`. -/
def hasOutstanding (obs : List PendingObservation) (traitId : String) : Bool :=
  obs.any (fun o => o.traitId == traitId && !o.dismissed)

/-- `generateObservations` (useBehavioralInference.ts lines 203-323): skip
everything while a fresh undismissed observation exists; otherwise each of
the five rules appends its observation when its condition holds, every
condition being checked against the observation list from before the pass.
The message templates are the `OBSERVATION_TEMPLATES` entries
(src/src/types/behavioral.ts lines 95-126), with `replaceFirst` playing
the JavaScript string-pattern `replace`. -/
def generateObservations (now : Nat) (prev : BehavioralProfile) : BehavioralProfile :=
  if prev.observations.any (isRecentObservation now) then prev
  else
    let obs := prev.observations
    let metrics := prev.metrics
    let explorationTrait := prev.traits.find? (fun t => t.id == "explorationTendency")
    let decisionTrait := prev.traits.find? (fun t => t.id == "decisionStyle")
    let insightTrait := prev.traits.find? (fun t => t.id == "insightReceptivity")
    let b1 :=
      match explorationTrait with
      | some t =>
        if 1/2 < t.confidence ∧ 7/10 < t.value ∧ t.confirmedByUser = none ∧
            hasOutstanding obs "explorationTendency" = false then
          [{ id := "", traitId := "explorationTendency",
             message := replaceFirst "You\x27ve explored \x7bcount\x7d tangents in recent sessions"
               "\x7bcount\x7d" (toString metrics.tangentCount),
             question := "Should I give you a gentle nudge when conversations drift, or do you prefer free exploration?",
             priority := .medium, createdAt := now, dismissed := false }]
        else []
      | none => []
    let b2 :=
      match explorationTrait with
      | some t =>
        if 1/2 < t.confidence ∧ t.value < 3/10 ∧ t.confirmedByUser = none ∧
            hasOutstanding obs "explorationTendency" = false then
          [{ id := "", traitId := "explorationTendency",
             message := "You tend to stay tightly focused on your goals",
             question := "Want me to occasionally suggest related angles you might be missing?",
             priority := .low, createdAt := now, dismissed := false }]
        else []
      | none => []
    let b3 :=
      match decisionTrait with
      | some t =>
        if 1/2 < t.confidence ∧ t.value < 3/10 ∧ t.confirmedByUser = none ∧
            hasOutstanding obs "decisionStyle" = false then
          [{ id := "", traitId := "decisionStyle",
             message := "You often move to action quickly",
             question := "Should I prompt you to consider alternatives before big decisions?",
             priority := .medium, createdAt := now, dismissed := false }]
        else []
      | none => []
    let b4 :=
      if 5 ≤ metrics.actionItemsCreated ∧
          (metrics.actionItemsCompleted : ℚ) / ((max 1 metrics.actionItemsCreated : Nat) : ℚ) < 3/10 ∧
          hasOutstanding obs "actionPileup" = false then
        [{ id := "", traitId := "actionPileup",
           message := replaceFirst
             (replaceFirst "You\x27ve created \x7bcreated\x7d action items but completed \x7bcompleted\x7d"
               "\x7bcreated\x7d" (toString metrics.actionItemsCreated))
             "\x7bcompleted\x7d" (toString metrics.actionItemsCompleted),
           question := "Would a periodic action item review help?",
           priority := .medium, createdAt := now, dismissed := false }]
      else []
    let b5 :=
      match insightTrait with
      | some t =>
        if 1/2 < t.confidence ∧ t.value < 2/10 ∧ t.confirmedByUser = none ∧
            hasOutstanding obs "insightReceptivity" = false then
          [{ id := "", traitId := "insightReceptivity",
             message := "You often dismiss insights without acting on them",
             question := "Should I show fewer insights, or make them more actionable?",
             priority := .low, createdAt := now, dismissed := false }]
        else []
      | none => []
    { prev with observations := obs ++ b1 ++ b2 ++ b3 ++ b4 ++ b5 }

/-! ### Cognitive profile blending (src/unnamed/part_001)

The embedded `CognitiveProfile` carries the three field groups the blend
touches (`thinkingStyles`, `patterns`, `preferences`,
src/src/types/cognition.ts lines 8-39).  The id/date bookkeeping fields and
the `mentalModels` list are outside every analyzed property; the
emerging-concept merge (part_001 lines 281-342) mutates only
`mentalModels`, placing new concepts at `Math.random()` positions, and is
not embedded. -/

/-- The 8 thinking-style axes. -/
@[ext]
structure ThinkingStyles where
  visual : ℚ
  verbal : ℚ
  sequential : ℚ
  associative : ℚ
  analytical : ℚ
  intuitive : ℚ
  abstract : ℚ
  concrete : ℚ
deriving DecidableEq, Repr

/-- The 7 observed-pattern axes. -/
@[ext]
structure CognitivePatterns where
  averageMessageLength : ℚ
  questionFrequency : ℚ
  explorationDepth : ℚ
  tangentTolerance : ℚ
  decisionSpeed : ℚ
  evidenceNeed : ℚ
  collaborativeVsSolo : ℚ
deriving DecidableEq, Repr

/-- Interaction-mode preferences. -/
@[ext]
structure CogPreferences where
  briefVsDetailed : ℚ
  structuredVsFreeform : ℚ
  challengeVsSupport : ℚ
  pacePreference : String
deriving DecidableEq, Repr

/-- The blended part of the cognitive profile. -/
@[ext]
structure CognitiveProfile where
  thinkingStyles : ThinkingStyles
  patterns : CognitivePatterns
  preferences : CogPreferences
deriving DecidableEq, Repr

/-- A partial thinking-styles update: `none` is an absent key. -/
structure StylesUpdate where
  visual : Option ℚ
  verbal : Option ℚ
  sequential : Option ℚ
  associative : Option ℚ
  analytical : Option ℚ
  intuitive : Option ℚ
  abstract : Option ℚ
  concrete : Option ℚ
deriving DecidableEq, Repr

/-- A partial patterns update: `none` is an absent key or a non-numeric
value (the source guards `typeof update.patterns[k] === 'number'`). -/
structure PatternsUpdate where
  averageMessageLength : Option ℚ
  questionFrequency : Option ℚ
  explorationDepth : Option ℚ
  tangentTolerance : Option ℚ
  decisionSpeed : Option ℚ
  evidenceNeed : Option ℚ
  collaborativeVsSolo : Option ℚ
deriving DecidableEq, Repr

/-- A partial preferences update; the two sliders are guarded by
`typeof === 'number'` in the source, `pacePreference` by truthiness. -/
structure PreferencesUpdate where
  briefVsDetailed : Option ℚ
  structuredVsFreeform : Option ℚ
  pacePreference : Option String
deriving DecidableEq, Repr

/-- The parsed LLM profile update (the three groups `mergeProfileUpdate`
blends; a missing group leaves its target untouched). -/
structure ProfileUpdate where
  thinkingStyles : Option StylesUpdate
  patterns : Option PatternsUpdate
  preferences : Option PreferencesUpdate
deriving DecidableEq, Repr

/-- `current * 0.7 + update * 0.3` for a present axis, the current value
for an absent one. -/
def blendAxis (c : ℚ) : Option ℚ → ℚ
  | some v => c * (7/10) + v * (3/10)
  | none => c

/-- The thinking-styles loop of `mergeProfileUpdate` (part_001 lines
246-254). -/
def mergeStyles (cur : ThinkingStyles) : Option StylesUpdate → ThinkingStyles
  | none => cur
  | some u =>
    { visual := blendAxis cur.visual u.visual,
      verbal := blendAxis cur.verbal u.verbal,
      sequential := blendAxis cur.sequential u.sequential,
      associative := blendAxis cur.associative u.associative,
      analytical := blendAxis cur.analytical u.analytical,
      intuitive := blendAxis cur.intuitive u.intuitive,
      abstract := blendAxis cur.abstract u.abstract,
      concrete := blendAxis cur.concrete u.concrete }

/-- The patterns loop of `mergeProfileUpdate` (part_001 lines 257-264). -/
def mergePatterns (cur : CognitivePatterns) : Option PatternsUpdate → CognitivePatterns
  | none => cur
  | some u =>
    { averageMessageLength := blendAxis cur.averageMessageLength u.averageMessageLength,
      questionFrequency := blendAxis cur.questionFrequency u.questionFrequency,
      explorationDepth := blendAxis cur.explorationDepth u.explorationDepth,
      tangentTolerance := blendAxis cur.tangentTolerance u.tangentTolerance,
      decisionSpeed := blendAxis cur.decisionSpeed u.decisionSpeed,
      evidenceNeed := blendAxis cur.evidenceNeed u.evidenceNeed,
      collaborativeVsSolo := blendAxis cur.collaborativeVsSolo u.collaborativeVsSolo }

/-- The preferences update of `mergeProfileUpdate` (part_001 lines 267-278):
present numeric sliders overwrite, a truthy (nonempty) `pacePreference`
overwrites, `challengeVsSupport` is never written. -/
def mergePreferences (cur : CogPreferences) : Option PreferencesUpdate → CogPreferences
  | none => cur
  | some u =>
    { briefVsDetailed := u.briefVsDetailed.getD cur.briefVsDetailed,
      structuredVsFreeform := u.structuredVsFreeform.getD cur.structuredVsFreeform,
      challengeVsSupport := cur.challengeVsSupport,
      pacePreference :=
        match u.pacePreference with
        | some p => if p ≠ "" then p else cur.pacePreference
        | none => cur.pacePreference }

/-- `mergeProfileUpdate` (part_001 lines 242-345) restricted to the blended
field groups. -/
def mergeProfileUpdate (cur : CognitiveProfile) (upd : ProfileUpdate) : CognitiveProfile :=
  { thinkingStyles := mergeStyles cur.thinkingStyles upd.thinkingStyles,
    patterns := mergePatterns cur.patterns upd.patterns,
    preferences := mergePreferences cur.preferences upd.preferences }

/-- The zero-delta update: every axis and preference present and equal to
the current profile's value. -/
def zeroDeltaUpdate (cur : CognitiveProfile) : ProfileUpdate :=
  { thinkingStyles := some
      { visual := some cur.thinkingStyles.visual,
        verbal := some cur.thinkingStyles.verbal,
        sequential := some cur.thinkingStyles.sequential,
        associative := some cur.thinkingStyles.associative,
        analytical := some cur.thinkingStyles.analytical,
        intuitive := some cur.thinkingStyles.intuitive,
        abstract := some cur.thinkingStyles.abstract,
        concrete := some cur.thinkingStyles.concrete },
    patterns := some
      { averageMessageLength := some cur.patterns.averageMessageLength,
        questionFrequency := some cur.patterns.questionFrequency,
        explorationDepth := some cur.patterns.explorationDepth,
        tangentTolerance := some cur.patterns.tangentTolerance,
        decisionSpeed := some cur.patterns.decisionSpeed,
        evidenceNeed := some cur.patterns.evidenceNeed,
        collaborativeVsSolo := some cur.patterns.collaborativeVsSolo },
    preferences := some
      { briefVsDetailed := some cur.preferences.briefVsDetailed,
        structuredVsFreeform := some cur.preferences.structuredVsFreeform,
        pacePreference := some cur.preferences.pacePreference } }

/-- The 8 thinking-style axes as (profile getter, update getter) pairs. -/
def styleAxes : List ((ThinkingStyles → ℚ) × (StylesUpdate → Option ℚ)) :=
  [(ThinkingStyles.visual, StylesUpdate.visual),
   (ThinkingStyles.verbal, StylesUpdate.verbal),
   (ThinkingStyles.sequential, StylesUpdate.sequential),
   (ThinkingStyles.associative, StylesUpdate.associative),
   (ThinkingStyles.analytical, StylesUpdate.analytical),
   (ThinkingStyles.intuitive, StylesUpdate.intuitive),
   (ThinkingStyles.abstract, StylesUpdate.abstract),
   (ThinkingStyles.concrete, StylesUpdate.concrete)]

/-- The 7 pattern axes as (profile getter, update getter) pairs. -/
def patternAxes : List ((CognitivePatterns → ℚ) × (PatternsUpdate → Option ℚ)) :=
  [(CognitivePatterns.averageMessageLength, PatternsUpdate.averageMessageLength),
   (CognitivePatterns.questionFrequency, PatternsUpdate.questionFrequency),
   (CognitivePatterns.explorationDepth, PatternsUpdate.explorationDepth),
   (CognitivePatterns.tangentTolerance, PatternsUpdate.tangentTolerance),
   (CognitivePatterns.decisionSpeed, PatternsUpdate.decisionSpeed),
   (CognitivePatterns.evidenceNeed, PatternsUpdate.evidenceNeed),
   (CognitivePatterns.collaborativeVsSolo, PatternsUpdate.collaborativeVsSolo)]

/-! ### LLM-backed insight and unified analyzers
(src/src/hooks/useInsightDetection.ts, src/src/hooks/useUnifiedAnalysis.ts)

The external completion call together with the JSON extraction/parse step
is modelled as a `CallOutcome` oracle: the call either throws or delivers
the parse result (`none` when no JSON object could be extracted). -/

/-- Outcome of one external completion call followed by response parsing. -/
inductive CallOutcome (α : Type)
  | throws
  | responds (parsed : Option α)

/-- The parsed insight-detection response shape. -/
structure ParsedInsight where
  hasInsight : Bool
  type : String
  title : String
  description : String
  confidence : ℚ
  crystallization : ℚ
  suggestedActions : List String
  relatedQuotes : List String
deriving DecidableEq, Repr

/-- An `Insight` (src/src/types/insights.ts shape as constructed by the
hooks); the wall-clock `timestamp` is not modelled. -/
structure Insight where
  id : String
  type : String
  title : String
  description : String
  confidence : ℚ
  crystallization : ℚ
  relatedMessageIds : List String
  suggestedActions : List String
deriving DecidableEq, Repr

/-- `messages.filter(m => m.role === 'user').length`. -/
def userMessageCount (msgs : List Message) : Nat :=
  (msgs.filter (fun m => m.role == Role.user)).length

/-- `findRelatedMessageIds` (useInsightDetection.ts lines 177-186). -/
def findRelatedMessageIds (messages : List Message) (quotes : List String) : List String :=
  quotes.filterMap (fun q =>
    (messages.find? (fun m =>
      containsSub (lowerStr m.content) (String.mk ((lowerL q.toList).take 50)))).map
      (fun m => m.id))

/-- The acceptance test of the single-analyzer path
(useInsightDetection.ts line 103): `parsed.hasInsight && parsed.confidence > 0.6`. -/
def acceptInsight (p : ParsedInsight) : Bool :=
  p.hasInsight && decide ((6 : ℚ)/10 < p.confidence)

/-- The `Insight` built from an accepted parse
(useInsightDetection.ts lines 104-114). -/
def mkInsightFrom (msgs : List Message) (p : ParsedInsight) : Insight :=
  { id := "", type := p.type, title := p.title, description := p.description,
    confidence := p.confidence, crystallization := p.crystallization,
    relatedMessageIds := findRelatedMessageIds msgs p.relatedQuotes,
    suggestedActions := p.suggestedActions }

/-- Result of one `analyzeForInsights` invocation: the analyzer's
`lastAnalyzedCountRef` after the call, whether the external service was
invoked, and the surfaced insight if any. -/
structure InsightStepResult where
  lastAnalyzedCount : Nat
  calledService : Bool
  surfaced : Option Insight
deriving DecidableEq, Repr

/-- `analyzeForInsights` (useInsightDetection.ts lines 74-134) as a step
function: early exits for missing key/goal or fewer than 3 messages, the
every-2-user-messages throttle, then the ref update (before the call) and
the call itself; a thrown call or failed parse surfaces nothing and the
ref stays advanced. -/
def analyzeForInsightsStep (apiKey goal : String) (lastCount : Nat)
    (msgs : List Message) (o : CallOutcome ParsedInsight) : InsightStepResult :=
  if apiKey = "" ∨ goal = "" ∨ msgs.length < 3 then
    { lastAnalyzedCount := lastCount, calledService := false, surfaced := none }
  else
    let c := userMessageCount msgs
    if c ≤ lastCount then
      { lastAnalyzedCount := lastCount, calledService := false, surfaced := none }
    else if c - lastCount < 2 then
      { lastAnalyzedCount := lastCount, calledService := false, surfaced := none }
    else
      { lastAnalyzedCount := c, calledService := true,
        surfaced :=
          match o with
          | .throws => none
          | .responds none => none
          | .responds (some p) =>
            if acceptInsight p then some (mkInsightFrom msgs p) else none }

/-- The parsed `drift` member of the unified response. -/
structure ParsedDrift where
  detected : Bool
  reason : Option String
deriving DecidableEq, Repr

/-- The parsed `insight` member of the unified response. -/
structure ParsedUnifiedInsight where
  found : Bool
  type : String
  title : Option String
  description : Option String
  confidence : ℚ
deriving DecidableEq, Repr

/-- One parsed `actions` entry of the unified response. -/
structure ParsedAction where
  text : String
  priority : Option Priority
deriving DecidableEq, Repr

/-- The parsed unified-analysis response shape. -/
structure ParsedUnified where
  drift : Option ParsedDrift
  insight : Option ParsedUnifiedInsight
  actions : Option (List ParsedAction)
deriving DecidableEq, Repr

/-- JavaScript `x || d` on strings: a missing or empty string falls back. -/
def strOr (o : Option String) (d : String) : String :=
  match o with
  | some s => if s ≠ "" then s else d
  | none => d

/-- `UnifiedAnalysisResult` (useUnifiedAnalysis.ts lines 38-42). -/
structure UnifiedAnalysisResult where
  drift : ParsedDrift
  insight : Option Insight
  actions : List ActionItem
deriving DecidableEq, Repr

/-- The destructuring of a parsed unified response into the result shape
(useUnifiedAnalysis.ts lines 101-122): the insight is accepted only when
`found` and `confidence > 0.7`; actions are taken unconditionally with a
`medium` priority fallback and the last message's id (the unified path sets
no `dismissed` flag and no related ids or suggested actions). -/
def buildUnifiedResult (msgs : List Message) (p : ParsedUnified) : UnifiedAnalysisResult :=
  { drift := p.drift.getD { detected := false, reason := none },
    insight :=
      match p.insight with
      | some ins =>
        if ins.found && decide ((7 : ℚ)/10 < ins.confidence) then
          some { id := "", type := ins.type, title := strOr ins.title "Insight",
                 description := strOr ins.description "",
                 confidence := ins.confidence, crystallization := ins.confidence,
                 relatedMessageIds := [], suggestedActions := [] }
        else none
      | none => none,
    actions := (p.actions.getD []).map (fun a =>
      { id := "", text := a.text, priority := a.priority.getD .medium,
        completed := false, dismissed := false,
        messageId :=
          match msgs.getLast? with
          | some m => m.id
          | none => "" }) }

/-- Result of one unified `analyze` invocation. -/
structure UnifiedStepResult where
  lastAnalyzedCount : Nat
  calledService : Bool
  result : Option UnifiedAnalysisResult
deriving DecidableEq, Repr

/-- `analyze` (useUnifiedAnalysis.ts lines 63-131) as a step function:
early exits for missing key/goal or fewer than 2 messages, the
every-`interval`-user-messages throttle (`analysisIntervalRef`), then the
ref update (before the call) and the call; a thrown call or failed parse
returns `none` and the ref stays advanced. -/
def unifiedAnalyzeStep (apiKey : String) (interval : Nat) (lastCount : Nat)
    (goal : String) (msgs : List Message) (o : CallOutcome ParsedUnified) :
    UnifiedStepResult :=
  if apiKey = "" ∨ goal = "" ∨ msgs.length < 2 then
    { lastAnalyzedCount := lastCount, calledService := false, result := none }
  else
    let c := userMessageCount msgs
    if c ≤ lastCount then
      { lastAnalyzedCount := lastCount, calledService := false, result := none }
    else if c - lastCount < interval then
      { lastAnalyzedCount := lastCount, calledService := false, result := none }
    else
      { lastAnalyzedCount := c, calledService := true,
        result :=
          match o with
          | .throws => none
          | .responds none => none
          | .responds (some p) => some (buildUnifiedResult msgs p) }

/-! ### Concrete inputs used by the witnesses and counterexamples -/

/-- Six messages whose last four have contents `a`, `b`, `x`, `y`. -/
def msgsC1 : List Message :=
  [{ id := "1", role := .user, content := "hello" },
   { id := "2", role := .assistant, content := "hello" },
   { id := "3", role := .user, content := "a" },
   { id := "4", role := .assistant, content := "b" },
   { id := "5", role := .user, content := "x" },
   { id := "6", role := .assistant, content := "y" }]

/-- The assistant message of the spec's action-item example. -/
def msgC5 : Message :=
  { id := "m1", role := .assistant,
    content := "I need to refactor the auth module. Let\x27s also consider adding tests." }

/-- An assistant message whose two `TODO` sentences carry the same text. -/
def msgC8 : Message :=
  { id := "m2", role := .assistant,
    content := "TODO: fix the build. TODO: fix the build." }

/-- The empty client-side analysis state. -/
def stInit : AnalysisState := { actionItems := [], highlightedMessages := [], processedMessages := [] }

/-- An action item as extracted from `msgC8`. -/
def itemC8 : ActionItem :=
  { id := "", text := "Fix the build", completed := false, dismissed := false,
    messageId := "m2", priority := .high }

/-- All-zero behavioral metrics (`DEFAULT_BEHAVIORAL_PROFILE.metrics`). -/
def zeroMetrics : BehavioralMetrics :=
  { tangentCount := 0, selfCorrectionCount := 0, promptedRefocusCount := 0,
    questionBeforeActionCount := 0, quickDecisionCount := 0, optionsExploredAvg := 0,
    insightsAccepted := 0, insightsDismissed := 0, insightsActedOn := 0,
    clipsTotal := 0, clipsByCategory := [], actionItemsCreated := 0,
    actionItemsCompleted := 0, avgMessageLength := 0, followUpRatio := 0,
    sessionCount := 0, avgSessionLength := 0 }

/-- Metrics with exactly five accepted insights and nothing else. -/
def metricsC4 : BehavioralMetrics := { zeroMetrics with insightsAccepted := 5 }

/-- The single trait inferred from `metricsC4`. -/
def traitC4 : InferredTrait :=
  { id := "insightReceptivity", name := "Insight Engagement",
    description := "How you respond to AI-generated insights and suggestions",
    confidence := 1/2, value := 1, confirmedByUser := none, lastUpdated := 0 }

/-- A confident, highly exploratory, unconfirmed trait. -/
def traitExplC6 : InferredTrait :=
  { id := "explorationTendency", name := "Exploration Style",
    description := "How much you explore tangents vs. staying on track",
    confidence := 6/10, value := 8/10, confirmedByUser := none, lastUpdated := 0 }

/-- A confident quick-decider trait (low value), unconfirmed. -/
def traitDecC6 : InferredTrait :=
  { id := "decisionStyle", name := "Decision Approach",
    description := "Whether you decide quickly or explore all options first",
    confidence := 6/10, value := 2/10, confirmedByUser := none, lastUpdated := 0 }

/-- A profile in which two trait conditions qualify simultaneously and no
observation exists. -/
def profileC6 : BehavioralProfile :=
  { metrics := zeroMetrics, traits := [traitExplC6, traitDecC6],
    observations := [], lastAnalyzed := 0 }

/-- An undismissed observation created at time 0. -/
def obsFreshC6 : PendingObservation :=
  { id := "", traitId := "explorationTendency", message := "m", question := "q",
    priority := .medium, createdAt := 0, dismissed := false }

/-- `profileC6` with a fresh undismissed observation (inside the cooldown). -/
def profileC6cool : BehavioralProfile :=
  { metrics := zeroMetrics, traits := [traitExplC6, traitDecC6],
    observations := [obsFreshC6], lastAnalyzed := 0 }

/-- The default cognitive profile values (src/src/types/cognition.ts
lines 72-99). -/
def curC9 : CognitiveProfile :=
  { thinkingStyles :=
      { visual := 1/2, verbal := 1/2, sequential := 1/2, associative := 1/2,
        analytical := 1/2, intuitive := 1/2, abstract := 1/2, concrete := 1/2 },
    patterns :=
      { averageMessageLength := 100, questionFrequency := 1/2, explorationDepth := 1/2,
        tangentTolerance := 1/2, decisionSpeed := 1/2, evidenceNeed := 1/2,
        collaborativeVsSolo := 1/2 },
    preferences :=
      { briefVsDetailed := 1/2, structuredVsFreeform := 1/2, challengeVsSupport := 1/2,
        pacePreference := "moderate" } }

/-- An update carrying only the `visual` axis. -/
def updC9 : ProfileUpdate :=
  { thinkingStyles := some
      { visual := some (9/10), verbal := none, sequential := none, associative := none,
        analytical := none, intuitive := none, abstract := none, concrete := none },
    patterns := none, preferences := none }

/-- A parsed insight sitting exactly on the 0.6 confidence boundary. -/
def pC3 : ParsedInsight :=
  { hasInsight := true, type := "breakthrough", title := "t", description := "d",
    confidence := 6/10, crystallization := 1/2, suggestedActions := [],
    relatedQuotes := [] }

/-- A parsed unified response with an insight above the 0.7 boundary. -/
def uC3 : ParsedUnified :=
  { drift := none,
    insight := some { found := true, type := "pivot", title := none,
                      description := none, confidence := 8/10 },
    actions := none }

/-! ### Theorems -/

/-- Claim C1 (amended contract of `checkDriftClientSide`): with fewer than
`minMessages` messages or an empty keyword list the result is
`isDrifting = false, matchRatio = 1` regardless of content; otherwise
`matchRatio` is the number of goal keywords occurring as substrings of the
space-joined concatenation of the lowercased texts of the last 4 messages
divided by the total keyword count, and `isDrifting` holds exactly when
`matchRatio < 0.15`. -/
theorem C1_checkDrift_contract (msgs : List Message) (kws : List String) (mm : Nat) :
    ((msgs.length < mm ∨ kws.length = 0) →
      checkDriftClientSide msgs kws mm = { isDrifting := false, matchRatio := 1 }) ∧
    (¬ (msgs.length < mm ∨ kws.length = 0) →
      (checkDriftClientSide msgs kws mm).matchRatio =
        ((kws.filter (fun kw => containsSub (recentText msgs) kw)).length : ℚ) /
          (kws.length : ℚ) ∧
      ((checkDriftClientSide msgs kws mm).isDrifting = true ↔
        (checkDriftClientSide msgs kws mm).matchRatio < 15/100)) := by
  constructor
  · intro h
    unfold checkDriftClientSide
    rw [if_pos h]
  · intro h
    unfold checkDriftClientSide
    rw [if_neg h]
    exact ⟨rfl, ⟨fun hx => of_decide_eq_true hx, fun hx => decide_eq_true hx⟩⟩

/-- Claim C1 witness: both branches applied at concrete inputs. -/
theorem C1_checkDrift_contract_witness :
    checkDriftClientSide [] ["api"] 6 = { isDrifting := false, matchRatio := 1 } ∧
    (checkDriftClientSide msgsC1 ["ab"] 6).matchRatio = 0 :=
  ⟨(C1_checkDrift_contract [] ["api"] 6).1 (Or.inl (by decide)),
   by
     have h := ((C1_checkDrift_contract msgsC1 ["ab"] 6).2 (by decide)).1
     rw [h, show (["ab"].filter (fun kw => containsSub (recentText msgsC1) kw)) = []
       from by decide]
     norm_num⟩

/-- Claim C1 counterexample: against the literal (separator-free)
concatenation of the claim, the keyword `ab` spans the boundary of the
messages `a` and `b`, so the claimed ratio is 1 while the code computes 0
(the code joins the texts with a space). -/
theorem C1_concatenation_counterexample :
    (checkDriftClientSide msgsC1 ["ab"] 6).matchRatio = 0 ∧
    claimConcatMatchRatio msgsC1 ["ab"] = 1 ∧ (0 : ℚ) ≠ 1 := by
  refine ⟨?_, ?_, by norm_num⟩
  · unfold checkDriftClientSide
    rw [if_neg (by decide)]
    show ((List.filter _ ["ab"]).length : ℚ) / _ = 0
    rw [show (["ab"].filter (fun kw => containsSub (recentText msgsC1) kw)) = []
      from by decide]
    norm_num
  · unfold claimConcatMatchRatio
    rw [show (["ab"].filter (fun kw => containsSub (concatRecentText msgsC1) kw)) = ["ab"]
      from by decide]
    norm_num

/-- Claim C2 (amended): every token of `extractGoalKeywords` has length
greater than 2 and is not a stop-word (duplicates in the goal are
preserved: the output is a list, not a set). -/
theorem C2_extractKeywords_filtered (goal w : String)
    (hw : w ∈ extractGoalKeywords goal) : 2 < w.length ∧ w ∉ stopWords := by
  unfold extractGoalKeywords at hw
  rw [List.mem_filter] at hw
  obtain ⟨-, hpred⟩ := hw
  simp only [Bool.and_eq_true, decide_eq_true_eq, Bool.not_eq_true'] at hpred
  refine ⟨hpred.1, fun hmem => ?_⟩
  have : stopWords.contains w = true := List.elem_eq_true_of_mem hmem
  rw [hpred.2] at this
  exact Bool.false_ne_true this

/-- Claim C2 witness: the spec's own example goal. -/
theorem C2_extractKeywords_filtered_witness :
    "build" ∈ extractGoalKeywords "Build a REST API for todo app" ∧
    (2 < "build".length ∧ "build" ∉ stopWords) :=
  ⟨by decide, C2_extractKeywords_filtered "Build a REST API for todo app" "build" (by decide)⟩

/-- Claim C2 counterexample: a repeated content keyword is emitted twice,
so the output is not a set (duplicates do not collapse). -/
theorem C2_duplicates_counterexample :
    extractGoalKeywords "build build" = ["build", "build"] ∧
    ¬ (extractGoalKeywords "build build").Nodup := by decide

/-- Claim C3: a parsed insight with confidence exactly 0.6 is rejected by
the single-analyzer path (acceptance is strict `> 0.6`) and surfaces
nothing; the unified path surfaces an insight exactly when the parsed
insight is present with `found` and confidence strictly greater than 0.7
(so a below-threshold result is discarded silently in both paths). -/
theorem C3_confidence_thresholds (p : ParsedInsight) (hp : p.confidence = 6/10)
    (apiKey goal : String) (lastCount : Nat) (msgs msgs2 : List Message)
    (u : ParsedUnified) :
    (analyzeForInsightsStep apiKey goal lastCount msgs (.responds (some p))).surfaced = none ∧
    ((buildUnifiedResult msgs2 u).insight ≠ none ↔
      ∃ ins, u.insight = some ins ∧ ins.found = true ∧ (7 : ℚ)/10 < ins.confidence) := by
  constructor
  · have hacc : acceptInsight p = false := by
      unfold acceptInsight
      rw [hp]
      simp [show ¬ ((6:ℚ)/10 < 6/10) from lt_irrefl _]
    simp only [analyzeForInsightsStep]
    split_ifs <;> simp_all
  · cases hins : u.insight with
    | none =>
      simp [buildUnifiedResult, hins]
    | some ins =>
      simp only [buildUnifiedResult, hins]
      by_cases hc : ins.found = true ∧ (7:ℚ)/10 < ins.confidence
      · rw [if_pos (by simp [hc.1, hc.2])]
        simp only [ne_eq, reduceCtorEq, not_false_eq_true, true_iff]
        exact ⟨ins, rfl, hc.1, hc.2⟩
      · rw [if_neg (by
          simp only [Bool.and_eq_true, decide_eq_true_eq]
          exact hc)]
        simp only [ne_eq, not_true_eq_false, false_iff, not_exists]
        rintro ins' ⟨h1, h2, h3⟩
        cases h1
        exact hc ⟨h2, h3⟩

/-- Claim C3 witness: the boundary value 0.6 at the single path and an
accepted 0.8-confidence unified insight. -/
theorem C3_confidence_thresholds_witness :
    (analyzeForInsightsStep "k" "g" 0 msgsC1 (.responds (some pC3))).surfaced = none ∧
    ((buildUnifiedResult [] uC3).insight ≠ none ↔
      ∃ ins, uC3.insight = some ins ∧ ins.found = true ∧ (7 : ℚ)/10 < ins.confidence) :=
  C3_confidence_thresholds pC3 rfl "k" "g" 0 msgsC1 [] uC3

/-- Claim C4 (amended): every trait produced by an analysis pass has
confidence `min 1 (sampleCount / normalizingConstant)` where the sample
count is the trait's backing-counter total and the per-trait normalizing
constants are 20, 15, 10 and 15 — between 10 and 20, not between 15 and 20
(`insightReceptivity` uses 10). -/
theorem C4_trait_confidence (prevTraits : List InferredTrait)
    (metrics : BehavioralMetrics) (now : Nat) (t : InferredTrait)
    (ht : t ∈ inferTraits prevTraits metrics now) :
    (t.id = "explorationTendency" ∧
      t.confidence = min 1 (((metrics.tangentCount + metrics.selfCorrectionCount : Nat) : ℚ) / 20)) ∨
    (t.id = "decisionStyle" ∧
      t.confidence = min 1 (((metrics.questionBeforeActionCount + metrics.quickDecisionCount : Nat) : ℚ) / 15)) ∨
    (t.id = "insightReceptivity" ∧
      t.confidence = min 1 (((metrics.insightsAccepted + metrics.insightsDismissed : Nat) : ℚ) / 10)) ∨
    (t.id = "captureStyle" ∧
      t.confidence = min 1 ((metrics.clipsTotal : ℚ) / 15)) := by
  unfold inferTraits at ht
  simp only [List.mem_append] at ht
  rcases ht with ((h | h) | h) | h
  · left
    split at h
    · simp only [List.mem_singleton] at h
      subst h
      exact ⟨rfl, rfl⟩
    · simp at h
  · right; left
    split at h
    · simp only [List.mem_singleton] at h
      subst h
      exact ⟨rfl, rfl⟩
    · simp at h
  · right; right; left
    split at h
    · simp only [List.mem_singleton] at h
      subst h
      exact ⟨rfl, rfl⟩
    · simp at h
  · right; right; right
    split at h
    · simp only [List.mem_singleton] at h
      subst h
      exact ⟨rfl, rfl⟩
    · simp at h

/-- Claim C4 witness: five accepted insights produce exactly the
`insightReceptivity` trait, whose confidence satisfies the (amended)
normalization property. -/
theorem C4_trait_confidence_witness :
    traitC4 ∈ inferTraits [] metricsC4 0 ∧
    ((traitC4.id = "explorationTendency" ∧
      traitC4.confidence = min 1 (((metricsC4.tangentCount + metricsC4.selfCorrectionCount : Nat) : ℚ) / 20)) ∨
    (traitC4.id = "decisionStyle" ∧
      traitC4.confidence = min 1 (((metricsC4.questionBeforeActionCount + metricsC4.quickDecisionCount : Nat) : ℚ) / 15)) ∨
    (traitC4.id = "insightReceptivity" ∧
      traitC4.confidence = min 1 (((metricsC4.insightsAccepted + metricsC4.insightsDismissed : Nat) : ℚ) / 10)) ∨
    (traitC4.id = "captureStyle" ∧
      traitC4.confidence = min 1 ((metricsC4.clipsTotal : ℚ) / 15))) := by
  have h : inferTraits [] metricsC4 0 = [traitC4] := by
    norm_num [inferTraits, metricsC4, zeroMetrics, MIN_SAMPLES_FOR_TRAIT,
      priorConfirmation, traitC4, min_def]
  have hm : traitC4 ∈ inferTraits [] metricsC4 0 := by
    rw [h]; exact List.mem_singleton_self _
  exact ⟨hm, C4_trait_confidence [] metricsC4 0 traitC4 hm⟩

/-- Claim C4 counterexample: with five accepted insights the code computes
confidence `min 1 (5/10) = 1/2` for `insightReceptivity`, but no
normalizing constant between 15 and 20 can produce 1/2 from five samples
(the claim's range excludes the actual constant 10). -/
theorem C4_normalizer_counterexample :
    ((inferTraits [] metricsC4 0).map (fun t => (t.id, t.confidence))) =
      [("insightReceptivity", (1/2 : ℚ))] ∧
    ∀ c : ℚ, 15 ≤ c → c ≤ 20 → min 1 ((5 : ℚ) / c) ≠ (1/2 : ℚ) := by
  constructor
  · have h : inferTraits [] metricsC4 0 = [traitC4] := by
      norm_num [inferTraits, metricsC4, zeroMetrics, MIN_SAMPLES_FOR_TRAIT,
        priorConfirmation, traitC4, min_def]
    rw [h]
    norm_num [traitC4]
  · intro c h15 _h20
    have hc : (0:ℚ) < c := lt_of_lt_of_le (by norm_num) h15
    have h1 : (5:ℚ)/c ≤ 1/3 := by
      rw [div_le_iff₀ hc]
      linarith
    have h2 : min 1 ((5:ℚ)/c) ≤ 1/3 := le_trans (min_le_right _ _) h1
    intro heq
    rw [heq] at h2
    norm_num at h2

/-- Claim C5 (amended): the spec's example message yields exactly three
action items — high "Refactor the auth module", medium "Also consider
adding tests", and additionally low "Adding tests", because the
`consider|think about` pattern also fires inside the second sentence. -/
theorem C5_example_extraction :
    (extractActionItems msgC5).map (fun i => (i.priority, i.text)) =
      [(Priority.high, "Refactor the auth module"),
       (Priority.medium, "Also consider adding tests"),
       (Priority.low, "Adding tests")] := by decide

/-- Claim C5 counterexample: the extraction yields three items, not the
two the claim states. -/
theorem C5_two_items_counterexample :
    (extractActionItems msgC5).length = 3 ∧ (extractActionItems msgC5).length ≠ 2 := by
  decide

/-- Claim C6 (amended): generation is skipped entirely — the profile is
returned unchanged — while any undismissed observation younger than 30
minutes exists; however, a single generation pass outside the cooldown
adds one observation per qualifying trait condition, so two conditions
qualifying in the same pass add two observations, not at most one. -/
theorem C6_cooldown_skips (now : Nat) (prev : BehavioralProfile)
    (h : prev.observations.any (isRecentObservation now) = true) :
    generateObservations now prev = prev := by
  unfold generateObservations
  rw [if_pos h]

/-- Claim C6 witness: a profile with a fresh undismissed observation and
two qualifying trait conditions gains nothing. -/
theorem C6_cooldown_skips_witness :
    generateObservations 0 profileC6cool = profileC6cool :=
  C6_cooldown_skips 0 profileC6cool (by decide)

/-- Claim C6 counterexample: with no prior observation and two qualifying
trait conditions (high exploration and quick decision), one pass adds two
observations — more than the single new observation the claim allows. -/
theorem C6_two_observations_counterexample :
    profileC6.observations.length = 0 ∧
    (generateObservations 0 profileC6).observations.length = 2 ∧
    ¬ ((generateObservations 0 profileC6).observations.length ≤
        profileC6.observations.length + 1) := by
  have hfE : profileC6.traits.find? (fun t => t.id == "explorationTendency") =
      some traitExplC6 := rfl
  have hfD : profileC6.traits.find? (fun t => t.id == "decisionStyle") =
      some traitDecC6 := rfl
  have hfI : profileC6.traits.find? (fun t => t.id == "insightReceptivity") =
      none := rfl
  refine ⟨rfl, ?_, ?_⟩ <;>
    norm_num [generateObservations, hfE, hfD, hfI, traitExplC6, traitDecC6,
      isRecentObservation, hasOutstanding, OBSERVATION_COOLDOWN_MS,
      show profileC6.observations = [] from rfl,
      show profileC6.metrics.actionItemsCreated = 0 from rfl]

/-- Claim C7: `analyzeMessage` is idempotent per message id — a second call
with an already-processed message id leaves the action-item list and the
highlighted-message set (indeed the whole analysis state) unchanged. -/
theorem C7_analyzeMessage_idempotent (st : AnalysisState) (msg : Message) :
    (analyzeMessage (analyzeMessage st msg) msg).actionItems =
      (analyzeMessage st msg).actionItems ∧
    (analyzeMessage (analyzeMessage st msg) msg).highlightedMessages =
      (analyzeMessage st msg).highlightedMessages := by
  have key : ∀ s : AnalysisState, s.processedMessages.contains msg.id = true →
      analyzeMessage s msg = s := by
    intro s hs
    unfold analyzeMessage
    rw [if_pos hs]
  have hmem : (analyzeMessage st msg).processedMessages.contains msg.id = true := by
    unfold analyzeMessage
    by_cases hc : st.processedMessages.contains msg.id = true
    · rw [if_pos hc]; exact hc
    · rw [if_neg hc]
      simp [List.contains_cons]
  rw [key _ hmem]
  exact ⟨rfl, rfl⟩

/-- Claim C8 (amended): the merge step never inserts an item whose
lowercased text already occurs among the existing items' lowercased texts —
every item of the merged list is either an existing item or has a text
absent (case-insensitively) from the prior list.  (The global
no-duplicates invariant fails: a single extraction batch can insert two
items with equal texts, see the counterexample.) -/
theorem C8_merge_dedup (prev newItems : List ActionItem) (i : ActionItem)
    (hi : i ∈ mergeActionItems prev newItems) :
    i ∈ prev ∨ (prev.map (fun j => lowerStr j.text)).contains (lowerStr i.text) = false := by
  unfold mergeActionItems at hi
  rcases List.mem_append.1 hi with h | h
  · exact Or.inl h
  · right
    have hp := (List.mem_filter.1 h).2
    simpa using hp

/-- Claim C8 witness: inserting one item into the empty list. -/
theorem C8_merge_dedup_witness :
    itemC8 ∈ mergeActionItems [] [itemC8] ∧
    (itemC8 ∈ ([] : List ActionItem) ∨
      (([] : List ActionItem).map (fun j => lowerStr j.text)).contains
        (lowerStr itemC8.text) = false) :=
  ⟨by decide, C8_merge_dedup [] [itemC8] itemC8 (by decide)⟩

/-- Claim C8 counterexample: one message with two identical `TODO`
sentences puts two items with equal (even identical-case) texts into the
running list — the batch is only deduplicated against existing items, not
against itself. -/
theorem C8_duplicate_batch_counterexample :
    ((analyzeMessage stInit msgC8).actionItems.map (fun i => lowerStr i.text)) =
      ["fix the build", "fix the build"] ∧
    ¬ ((analyzeMessage stInit msgC8).actionItems.map (fun i => lowerStr i.text)).Nodup := by
  decide

/-- Claim C9: every thinking-style and pattern axis present in the observed
update is blended as `current * 0.7 + observed * 0.3`, every absent axis is
left untouched, and merging the zero-delta update (all fields equal to the
current profile) leaves the profile unchanged. -/
theorem C9_profile_blend (cur : CognitiveProfile) (upd : ProfileUpdate) :
    (∀ gp ∈ styleAxes,
      gp.1 (mergeProfileUpdate cur upd).thinkingStyles =
        match upd.thinkingStyles with
        | none => gp.1 cur.thinkingStyles
        | some u =>
          match gp.2 u with
          | none => gp.1 cur.thinkingStyles
          | some v => gp.1 cur.thinkingStyles * (7/10) + v * (3/10)) ∧
    (∀ gp ∈ patternAxes,
      gp.1 (mergeProfileUpdate cur upd).patterns =
        match upd.patterns with
        | none => gp.1 cur.patterns
        | some u =>
          match gp.2 u with
          | none => gp.1 cur.patterns
          | some v => gp.1 cur.patterns * (7/10) + v * (3/10)) ∧
    mergeProfileUpdate cur (zeroDeltaUpdate cur) = cur := by
  have haux : ∀ (c : ℚ) (o : Option ℚ), blendAxis c o =
      match o with
      | none => c
      | some v => c * (7/10) + v * (3/10) := by
    intro c o
    cases o <;> rfl
  refine ⟨?_, ?_, ?_⟩
  · intro gp hgp
    fin_cases hgp <;>
      (simp only [mergeProfileUpdate]
       cases upd.thinkingStyles <;>
         first
           | rfl
           | exact haux _ _)
  · intro gp hgp
    fin_cases hgp <;>
      (simp only [mergeProfileUpdate]
       cases upd.patterns <;>
         first
           | rfl
           | exact haux _ _)
  · refine CognitiveProfile.ext ?_ ?_ ?_
    · refine ThinkingStyles.ext ?_ ?_ ?_ ?_ ?_ ?_ ?_ ?_ <;>
        (simp only [mergeProfileUpdate, zeroDeltaUpdate, mergeStyles, blendAxis]; ring)
    · refine CognitivePatterns.ext ?_ ?_ ?_ ?_ ?_ ?_ ?_ <;>
        (simp only [mergeProfileUpdate, zeroDeltaUpdate, mergePatterns, blendAxis]; ring)
    · refine CogPreferences.ext ?_ ?_ ?_ ?_ <;>
        (simp only [mergeProfileUpdate, zeroDeltaUpdate, mergePreferences, Option.getD]
         try first
           | rfl
           | (split <;> rfl))

/-- Claim C9 witness: a present `visual` axis is blended 0.7/0.3 and the
zero-delta merge fixes the default profile. -/
theorem C9_profile_blend_witness :
    (mergeProfileUpdate curC9 updC9).thinkingStyles.visual =
      curC9.thinkingStyles.visual * (7/10) + (9/10) * (3/10) ∧
    mergeProfileUpdate curC9 (zeroDeltaUpdate curC9) = curC9 := by
  have h := C9_profile_blend curC9 updC9
  refine ⟨?_, h.2.2⟩
  have h1 := h.1 (ThinkingStyles.visual, StylesUpdate.visual) (List.Mem.head _)
  simpa [updC9] using h1

/-- The `lastAnalyzedCountRef` after one insight-analyzer invocation: the
user-message count when the external service was called, the prior value
otherwise (the ref is advanced before the call and never rolled back). -/
theorem insightStep_last (apiKey goal : String) (lastCount : Nat)
    (msgs : List Message) (o : CallOutcome ParsedInsight) :
    (analyzeForInsightsStep apiKey goal lastCount msgs o).lastAnalyzedCount =
      if (analyzeForInsightsStep apiKey goal lastCount msgs o).calledService
      then userMessageCount msgs else lastCount := by
  simp only [analyzeForInsightsStep]
  split_ifs <;> simp_all

/-- A second insight-analyzer invocation on the same message list never
calls the external service, whatever either call's outcome. -/
theorem insightStep_no_repeat (apiKey goal : String) (lastCount : Nat)
    (msgs : List Message) (o1 o2 : CallOutcome ParsedInsight) :
    (analyzeForInsightsStep apiKey goal
      (analyzeForInsightsStep apiKey goal lastCount msgs o1).lastAnalyzedCount
      msgs o2).calledService = false := by
  simp only [analyzeForInsightsStep]
  split_ifs <;> first | rfl | simp_all

/-- The unified analyzer's `lastAnalyzedCountRef` after one invocation,
as for the insight analyzer. -/
theorem unifiedStep_last (apiKey : String) (interval lastCount : Nat)
    (goal : String) (msgs : List Message) (o : CallOutcome ParsedUnified) :
    (unifiedAnalyzeStep apiKey interval lastCount goal msgs o).lastAnalyzedCount =
      if (unifiedAnalyzeStep apiKey interval lastCount goal msgs o).calledService
      then userMessageCount msgs else lastCount := by
  simp only [unifiedAnalyzeStep]
  split_ifs <;> simp_all

/-- A second unified invocation on the same message list never calls the
external service. -/
theorem unifiedStep_no_repeat (apiKey : String) (interval lastCount : Nat)
    (goal : String) (msgs : List Message) (o1 o2 : CallOutcome ParsedUnified) :
    (unifiedAnalyzeStep apiKey interval
      (unifiedAnalyzeStep apiKey interval lastCount goal msgs o1).lastAnalyzedCount
      goal msgs o2).calledService = false := by
  simp only [unifiedAnalyzeStep]
  split_ifs <;> first | rfl | simp_all

/-- Claim C10: in both analyzers the last-analyzed counter equals the
user-message count whenever the external service was invoked (advanced
before the call, never rolled back — also on throw or parse failure), and
a repeated invocation with the same message list performs no external
call, whatever the outcomes. -/
theorem C10_throttle_advances_once (apiKey goal : String) (lastCount : Nat)
    (msgs : List Message) (o1 o2 : CallOutcome ParsedInsight)
    (interval : Nat) (u1 u2 : CallOutcome ParsedUnified) :
    ((analyzeForInsightsStep apiKey goal lastCount msgs o1).lastAnalyzedCount =
      if (analyzeForInsightsStep apiKey goal lastCount msgs o1).calledService
      then userMessageCount msgs else lastCount) ∧
    (analyzeForInsightsStep apiKey goal
      (analyzeForInsightsStep apiKey goal lastCount msgs o1).lastAnalyzedCount
      msgs o2).calledService = false ∧
    ((unifiedAnalyzeStep apiKey interval lastCount goal msgs u1).lastAnalyzedCount =
      if (unifiedAnalyzeStep apiKey interval lastCount goal msgs u1).calledService
      then userMessageCount msgs else lastCount) ∧
    (unifiedAnalyzeStep apiKey interval
      (unifiedAnalyzeStep apiKey interval lastCount goal msgs u1).lastAnalyzedCount
      goal msgs u2).calledService = false :=
  ⟨insightStep_last apiKey goal lastCount msgs o1,
   insightStep_no_repeat apiKey goal lastCount msgs o1 o2,
   unifiedStep_last apiKey interval lastCount goal msgs u1,
   unifiedStep_no_repeat apiKey interval lastCount goal msgs u1 u2⟩

end GoalKeeper
